import Mathlib

/-!
Shallow embedding of `dylint/src/driver_builder.rs`: the toolchain-scoped
driver build cache (`get`, `dylint_drivers`, `is_outdated`, `build`,
`initialize`) together with the semantic-version values the staleness check
compares.  Filesystem state and subprocess spawns are made explicit: every
embedded operation takes and returns a `St` (filesystem, event trace,
warnings) and returns `Except Err` for its fallible result, mirroring the
`anyhow::Result` plumbing of the source.
-/

namespace DriverBuilder

/-! ## List/string primitives mirroring the Rust string operations used -/

/-- Mirrors Rust `str::trim_end` (drop trailing whitespace), on char lists. -/
def trimEndList (l : List Char) : List Char :=
  (l.reverse.dropWhile Char.isWhitespace).reverse

/-- Mirrors Rust `str::rsplit_once(' ')`: split at the last space, returning
the parts before and after it, or `none` when there is no space. -/
def rsplitOnceSpace : List Char → Option (List Char × List Char)
  | [] => none
  | c :: rest =>
    match rsplitOnceSpace rest with
    | some (b, a) => some (c :: b, a)
    | none => if c = ' ' then some ([], rest) else none

/-- Split a char list at the first occurrence of `c`; `none` if absent. -/
def splitOnceChar (c : Char) : List Char → Option (List Char × List Char)
  | [] => none
  | x :: xs =>
    if x = c then some ([], xs)
    else (splitOnceChar c xs).map fun p => (x :: p.1, p.2)

/-- Split a char list on every occurrence of `c` (auxiliary accumulator form). -/
def splitOnCharAux (c : Char) : List Char → List Char → List (List Char)
  | [], acc => [acc.reverse]
  | x :: xs, acc =>
    if x = c then acc.reverse :: splitOnCharAux c xs []
    else splitOnCharAux c xs (x :: acc)

def splitOnChar (c : Char) (l : List Char) : List (List Char) :=
  splitOnCharAux c l []

/-! ## Semantic versions (`semver::Version`)

The artifact's self-reported version and the running tool's own version are
values of `semver::Version`, produced by `Version::parse` and compared with
`<`.  We embed the version grammar `major.minor.patch[-pre][+build]` and the
SemVer precedence order (numeric triple, then pre-release; a version with no
pre-release outranks one with any; build metadata is parsed but carries no
precedence). -/

/-- A pre-release identifier: numeric (no leading zeros) or alphanumeric. -/
inductive PreId
  | num (n : Nat)
  | str (s : List Char)
deriving DecidableEq

structure Version where
  major : Nat
  minor : Nat
  patch : Nat
  pre : List PreId
  build : List (List Char)
deriving DecidableEq

/-- Characters allowed in SemVer identifiers: ASCII alphanumerics and `-`. -/
def isIdentCh (c : Char) : Bool := c.isDigit || c.isAlpha || c = '-'

def natOfDigits (l : List Char) : Nat :=
  l.foldl (fun n c => n * 10 + (c.toNat - 48)) 0

/-- A numeric field (`major`, `minor`, `patch`): digits only, no leading zeros. -/
def parseNumeric (l : List Char) : Option Nat :=
  if l.isEmpty then none
  else if l.all Char.isDigit then
    if l.head? == some '0' && l.length != 1 then none else some (natOfDigits l)
  else none

def parsePreId (l : List Char) : Option PreId :=
  if l.isEmpty || !(l.all isIdentCh) then none
  else if l.all Char.isDigit then
    if l.head? == some '0' && l.length != 1 then none else some (.num (natOfDigits l))
  else some (.str l)

/-- A build-metadata identifier: nonempty, identifier chars (leading zeros allowed). -/
def parseBuildId (l : List Char) : Option (List Char) :=
  if l.isEmpty || !(l.all isIdentCh) then none else some l

def parseVersionList (l : List Char) : Option Version :=
  let pb := splitOnceChar '+' l
  let beforePlus := match pb with | some q => q.1 | none => l
  let buildPart : Option (List Char) := match pb with | some q => some q.2 | none => none
  let pd := splitOnceChar '-' beforePlus
  let core := match pd with | some q => q.1 | none => beforePlus
  let prePart : Option (List Char) := match pd with | some q => some q.2 | none => none
  match splitOnChar '.' core with
  | [ma, mi, pa] =>
    match parseNumeric ma, parseNumeric mi, parseNumeric pa with
    | some major, some minor, some patch =>
      match (match prePart with
             | none => some []
             | some p => (splitOnChar '.' p).mapM parsePreId),
            (match buildPart with
             | none => some []
             | some b => (splitOnChar '.' b).mapM parseBuildId) with
      | some pre, some build => some ⟨major, minor, patch, pre, build⟩
      | _, _ => none
    | _, _, _ => none
  | _ => none

/-- Mirrors `semver::Version::parse`. -/
def Version.parse (s : String) : Option Version := parseVersionList s.data

def cmpNat (a b : Nat) : Ordering :=
  if a < b then .lt else if b < a then .gt else .eq

def cmpCh (a b : Char) : Ordering := cmpNat a.toNat b.toNat

def cmpListChar : List Char → List Char → Ordering
  | [], [] => .eq
  | [], _ :: _ => .lt
  | _ :: _, [] => .gt
  | a :: as, b :: bs =>
    match cmpCh a b with
    | .eq => cmpListChar as bs
    | o => o

def PreId.cmp : PreId → PreId → Ordering
  | .num a, .num b => cmpNat a b
  | .num _, .str _ => .lt
  | .str _, .num _ => .gt
  | .str a, .str b => cmpListChar a b

def cmpPreList : List PreId → List PreId → Ordering
  | [], [] => .eq
  | [], _ :: _ => .lt
  | _ :: _, [] => .gt
  | a :: as, b :: bs =>
    match a.cmp b with
    | .eq => cmpPreList as bs
    | o => o

/-- Pre-release comparison: an empty pre-release outranks any nonempty one. -/
def cmpPre (a b : List PreId) : Ordering :=
  match a, b with
  | [], [] => .eq
  | [], _ :: _ => .gt
  | _ :: _, [] => .lt
  | x :: xs, y :: ys => cmpPreList (x :: xs) (y :: ys)

/-- SemVer precedence: numeric triple, then pre-release; build metadata does
not take part in precedence. -/
def Version.cmpPrecedence (a b : Version) : Ordering :=
  (cmpNat a.major b.major).then
    ((cmpNat a.minor b.minor).then
      ((cmpNat a.patch b.patch).then (cmpPre a.pre b.pre)))

/-- The `their_version < our_version` test of `is_outdated`. -/
def Version.precLt (a b : Version) : Bool :=
  match a.cmpPrecedence b with
  | .lt => true
  | _ => false

/-! ## Filesystem and subprocess model

Paths are absolute/relative flags plus component lists (`PathBuf::join` with a
single component appends a component).  The filesystem is an association list
from paths to nodes; insertion prepends, so the newest entry shadows older
ones.  Every subprocess spawn is recorded as an `Event` so that the claims
about which processes run (builds, version queries) are trace properties. -/

structure FsPath where
  abs : Bool
  comps : List String
deriving DecidableEq

/-- `PathBuf::join` with a single relative component. -/
def FsPath.join (p : FsPath) (s : String) : FsPath := ⟨p.abs, p.comps ++ [s]⟩

/-- `Path::to_string_lossy` on our path model. -/
def FsPath.render (p : FsPath) : String :=
  (if p.abs then "/" else "") ++ String.intercalate "/" p.comps

/-- What a cached binary prints on `-V`: either bytes that are not UTF-8, or
a UTF-8 string (the decoded stdout). -/
inductive VOut
  | nonUtf8
  | utf8 (s : String)
deriving DecidableEq

/-- A filesystem node: a directory, a plain (non-executable) file, or an
executable whose version-query output is `vout`. -/
inductive FNode
  | dir
  | file (contents : String)
  | execFile (vout : VOut)
deriving DecidableEq

abbrev FileS := List (FsPath × FNode)

def lookupFS : FileS → FsPath → Option FNode
  | [], _ => none
  | (q, n) :: rest, p => if p = q then some n else lookupFS rest p

def isDirFS (fs : FileS) (p : FsPath) : Bool :=
  match lookupFS fs p with
  | some .dir => true
  | _ => false

def existsFS (fs : FileS) (p : FsPath) : Bool := (lookupFS fs p).isSome

/-- Subprocess spawns performed by the embedded code.  `cargoBuild` records
the extra environment variables set on top of the sanitized base environment
(`sanitize_environment` followed by `envs`), and whether stderr is silenced. -/
inductive Event
  | versionQuery (driver : FsPath)
  | cargoMetadata (workspace : FsPath)
  | cargoBuild (workspace : FsPath) (extraEnv : List (String × String)) (quietStderr : Bool)
deriving DecidableEq

def Event.isCargoBuild : Event → Bool
  | .cargoBuild _ _ _ => true
  | _ => false

/-- Number of build-tool invocations in a trace. -/
def buildCount (es : List Event) : Nat := es.countP Event.isCargoBuild

structure St where
  fs : FileS
  events : List Event
  warnings : List String
deriving DecidableEq

def pushEvent (st : St) (e : Event) : St :=
  { st with events := st.events ++ [e] }

/-- Error kinds of the embedded operations (the `anyhow` errors of the
source, by provenance). -/
inductive Err
  | configuration
  | noHomeDir
  | spawnFailed (p : FsPath)
  | invalidUtf8
  | noVersionToken
  | selfVersionUnparseable
  | toolchainNotFound (toolchain : String)
  | buildFailed
  | copyFailed (src dst : FsPath)
deriving DecidableEq

/-- The ambient inputs of the source that are fixed for a process lifetime:
environment variables, the tool's own build-time version, platform constants,
and the outcomes of the external collaborators (tempdir allocation, cargo
metadata, rustup toolchain resolution, the build tool's exit status). -/
structure Env where
  dylintDriverPathVar : Option FsPath
  homeDir : Option FsPath
  cargoPkgVersion : String
  quiet : Bool
  exeSuffix : String
  tempDir : FsPath
  targetDirectory : FsPath
  toolchainRoot : Option FsPath
  buildSucceeds : Bool

/-! ## The embedded functions of `driver_builder.rs` -/

def README_TXT : String :=
  "\nThis directory contains Rust compiler drivers used by Dylint\n(https://github.com/trailofbits/dylint).\n\nDeleting this directory will cause Dylint to rebuild the drivers\nthe next time it needs them, but will have no ill effects.\n"

def cargo_toml (toolchain : String) (dylint_driver_spec : String) : String :=
  "\n[package]\nname = \"dylint_driver-" ++ toolchain ++
  "\"\nversion = \"0.1.0\"\nedition = \"2018\"\n\n[dependencies]\nanyhow = \"1.0.38\"\nenv_logger = \"0.8.3\"\ndylint_driver = \x7b " ++
  dylint_driver_spec ++ " \x7d\n"

def rust_toolchain (toolchain : String) : String :=
  "\n[toolchain]\nchannel = \"" ++ toolchain ++
  "\"\ncomponents = [\"llvm-tools-preview\", \"rustc-dev\"]\n"

def MAIN_RS : String :=
  "\nuse anyhow::Result;\nuse std::env;\nuse std::ffi::OsString;\n\npub fn main() -> Result<()> \x7b\n    env_logger::init();\n\n    let args: Vec<_> = env::args().map(OsString::from).collect();\n\n    dylint_driver::dylint_driver(&args)\n\x7d\n"

/-- `fn dylint_drivers()` : resolve the cache root.  With the
`DYLINT_DRIVER_PATH` override set, the named path must already be a
directory (`ensure!`).  Otherwise `<home>/.dylint_drivers` is used, created
together with `README.txt` when absent. -/
def dylint_drivers (env : Env) (st : St) : Except Err FsPath × St :=
  match env.dylintDriverPathVar with
  | some p =>
    if isDirFS st.fs p then (.ok p, st) else (.error .configuration, st)
  | none =>
    match env.homeDir with
    | none => (.error .noHomeDir, st)
    | some home =>
      let d := home.join ".dylint_drivers"
      if isDirFS st.fs d then (.ok d, st)
      else
        let fs1 : FileS := (d.join "README.txt", .file README_TXT) :: (d, .dir) :: st.fs
        (.ok d, { st with fs := fs1 })

/-- Running the cached binary with `-V` (`command.args(&["-V"]).output()`):
spawning anything that is not an executable fails. -/
def runDriverV (fs : FileS) (p : FsPath) : Except Err VOut :=
  match lookupFS fs p with
  | some (.execFile v) => .ok v
  | _ => .error (.spawnFailed p)

/-- `stdout.trim_end().rsplit_once(' ').map(|pair| pair.1)` : the candidate
version token the staleness check parses. -/
def tokenOf (s : String) : Option String :=
  (rsplitOnceSpace (trimEndList s.data)).map fun p => String.mk p.2

def warnCouldNotParse (theirs : String) : String :=
  "Could not parse driver version `" ++ theirs ++ "`"

/-- The pure core of `fn is_outdated`, applied to the outcome of the version
query and to `env!("CARGO_PKG_VERSION")`.  Returns the result together with
the warnings emitted through `warn`. -/
def is_outdated_pure (vout : Except Err VOut) (ourVersionStr : String) :
    Except Err Bool × List String :=
  match vout with
  | .error e => (.error e, [])
  | .ok .nonUtf8 => (.error .invalidUtf8, [])
  | .ok (.utf8 s) =>
    match tokenOf s with
    | none => (.error .noVersionToken, [])
    | some theirs =>
      match Version.parse theirs with
      | none => (.ok true, [warnCouldNotParse theirs])
      | some theirVersion =>
        match Version.parse ourVersionStr with
        | none => (.error .selfVersionUnparseable, [])
        | some ourVersion => (.ok (theirVersion.precLt ourVersion), [])

/-- `fn is_outdated` : spawn the cached binary with `-V` and compare its
self-reported version with the running tool's version. -/
def is_outdated (env : Env) (driver : FsPath) (st : St) : Except Err Bool × St :=
  let st1 := pushEvent st (.versionQuery driver)
  let r := is_outdated_pure (runDriverV st1.fs driver) env.cargoPkgVersion
  (r.1, { st1 with warnings := st1.warnings ++ r.2 })

/-- `version = "=<CARGO_PKG_VERSION>"` : the exact version pin written into
the generated manifest. -/
def version_spec (v : String) : String := "version = \"=" ++ v ++ "\""

inductive FsOp
  | writeFile (p : FsPath) (contents : String)
  | makeDir (p : FsPath)
deriving DecidableEq

def FsOp.isWrite : FsOp → Bool
  | .writeFile _ _ => true
  | _ => false

def FsOp.isMakeDir : FsOp → Bool
  | .makeDir _ => true
  | _ => false

/-- The filesystem operations performed by `fn initialize`, in source order:
write `Cargo.toml`, write `rust-toolchain`, `create_dir_all` for `src`,
write `src/main.rs`.  The release-mode `path_spec` is the empty string (the
local-development path pin is compiled out unless `debug_assertions` and the
`dylint_driver_local` feature are both on). -/
def initPackageOps (toolchain : String) (cargoPkgVersion : String) (package : FsPath) :
    List FsOp :=
  [ .writeFile (package.join "Cargo.toml")
      (cargo_toml toolchain (version_spec cargoPkgVersion ++ "")),
    .writeFile (package.join "rust-toolchain") (rust_toolchain toolchain),
    .makeDir (package.join "src"),
    .writeFile ((package.join "src").join "main.rs") MAIN_RS ]

def applyOp (fs : FileS) : FsOp → FileS
  | .writeFile p c => (p, .file c) :: fs
  | .makeDir p => (p, .dir) :: fs

/-- `fn initialize` : generate the build workspace descriptor files. -/
def initPackage (env : Env) (toolchain : String) (package : FsPath) (st : St) :
    Except Err Unit × St :=
  (.ok (),
   { st with
       fs := (initPackageOps toolchain env.cargoPkgVersion package).foldl applyOp st.fs })

/-- The `RUSTFLAGS` environment variable name (`env::RUSTFLAGS`). -/
def RUSTFLAGS : String := "RUSTFLAGS"

/-- The linker flag injected into the build:
`-C link-args=-Wl,-rpath,<toolchain_path>/lib`. -/
def rustflagsOf (toolchainPath : FsPath) : String :=
  "-C link-args=-Wl,-rpath," ++ (FsPath.render toolchainPath ++ "/lib")

/-- `dylint_driver-<toolchain><EXE_SUFFIX>` : the name of the compiled binary
under the build tool's debug directory. -/
def builtBinaryName (toolchain exeSuffix : String) : String :=
  "dylint_driver-" ++ toolchain ++ exeSuffix

/-- Modelled from the spec: the generated driver pins `dylint_driver` to
exactly the running tool's version, so a freshly built binary's
version-query output is a line ending in a space followed by that version
(the concrete program text around the token is immaterial to the claims). -/
def driverVOutput (v : String) : String := "dylint-driver " ++ v

/-- `fn build` : create the temporary workspace, generate its descriptor,
query cargo metadata, resolve the toolchain root, spawn the sanitized build,
and copy the produced binary into the cache slot `driver`. -/
def build (env : Env) (toolchain : String) (driver : FsPath) (st : St) :
    Except Err Unit × St :=
  let package := env.tempDir
  match initPackage env toolchain package st with
  | (.error e, st1) => (.error e, st1)
  | (.ok _, st1) =>
    let st2 := pushEvent st1 (.cargoMetadata package)
    let target_directory := env.targetDirectory
    match env.toolchainRoot with
    | none => (.error (.toolchainNotFound toolchain), st2)
    | some toolchain_path =>
      let rustflags := rustflagsOf toolchain_path
      let st3 := pushEvent st2 (.cargoBuild package [(RUSTFLAGS, rustflags)] env.quiet)
      if env.buildSucceeds then
        let binary :=
          (target_directory.join "debug").join (builtBinaryName toolchain env.exeSuffix)
        let st4 : St :=
          { st3 with
              fs := (binary, FNode.execFile (.utf8 (driverVOutput env.cargoPkgVersion)))
                      :: st3.fs }
        match lookupFS st4.fs binary with
        | some n => (.ok (), { st4 with fs := (driver, n) :: st4.fs })
        | none => (.error (.copyFailed binary driver), st4)
      else (.error .buildFailed, st3)

/-- The `if !driver_dir.is_dir() { create_dir_all(&driver_dir)? }` step of
`fn get` (directory creation is modelled as succeeding). -/
def ensureDriverDir (st : St) (driver_dir : FsPath) : St :=
  if isDirFS st.fs driver_dir then st
  else { st with fs := (driver_dir, .dir) :: st.fs }

/-- `fn get` : resolve the cache root, ensure the per-toolchain directory,
and return the cached driver path, rebuilding when the binary is absent or
`is_outdated` reports it stale.  (The source's `driver_dir`/`driver` let
bindings are inlined here.) -/
def get (env : Env) (toolchain : String) (st : St) : Except Err FsPath × St :=
  match dylint_drivers env st with
  | (.error e, st1) => (.error e, st1)
  | (.ok dylintDrivers, st1) =>
    if existsFS (ensureDriverDir st1 (dylintDrivers.join toolchain)).fs
        ((dylintDrivers.join toolchain).join "dylint-driver") then
      match is_outdated env ((dylintDrivers.join toolchain).join "dylint-driver")
          (ensureDriverDir st1 (dylintDrivers.join toolchain)) with
      | (.error e, st3) => (.error e, st3)
      | (.ok true, st3) =>
        match build env toolchain
            ((dylintDrivers.join toolchain).join "dylint-driver") st3 with
        | (.error e, st4) => (.error e, st4)
        | (.ok _, st4) => (.ok ((dylintDrivers.join toolchain).join "dylint-driver"), st4)
      | (.ok false, st3) => (.ok ((dylintDrivers.join toolchain).join "dylint-driver"), st3)
    else
      match build env toolchain ((dylintDrivers.join toolchain).join "dylint-driver")
          (ensureDriverDir st1 (dylintDrivers.join toolchain)) with
      | (.error e, st3) => (.error e, st3)
      | (.ok _, st3) => (.ok ((dylintDrivers.join toolchain).join "dylint-driver"), st3)

/-! ## Spec-side definitions

Definitions written from the specification's words, used to compare the
source behavior against the sentence under scrutiny. -/

/-- Spec's phrase "the text after the last space": `none` when there is no
space, else the maximal space-free suffix. -/
def afterLastSpace (l : List Char) : Option (List Char) :=
  if ' ' ∈ l then some ((l.reverse.takeWhile fun x => x != ' ').reverse) else none

/-- The last line of a char list (maximal suffix without a newline). -/
def lastLineOf (l : List Char) : List Char :=
  (l.reverse.takeWhile fun x => x != '\n').reverse

/-- Modelled from the spec: "take the text after the last space on the
trimmed last line" — the token the spec says the staleness check parses,
taken from the final line of the (trimmed) output. -/
def lastLineTokenSpec (s : String) : Option String :=
  (afterLastSpace (lastLineOf (trimEndList s.data))).map fun l => String.mk l

/-! ## Helper lemmas -/

theorem string_data_append (a b : String) : (a ++ b).data = a.data ++ b.data := rfl

theorem cmpNat_self (a : Nat) : cmpNat a a = .eq := by
  simp [cmpNat]

theorem cmpCh_self (a : Char) : cmpCh a a = .eq := by
  simp [cmpCh, cmpNat_self]

theorem cmpListChar_self (l : List Char) : cmpListChar l l = .eq := by
  induction l with
  | nil => rfl
  | cons a t ih => simp [cmpListChar, cmpCh_self, ih]

theorem PreId.cmp_self (p : PreId) : p.cmp p = .eq := by
  cases p <;> simp [PreId.cmp, cmpNat_self, cmpListChar_self]

theorem cmpPreList_self (l : List PreId) : cmpPreList l l = .eq := by
  induction l with
  | nil => rfl
  | cons a t ih => simp [cmpPreList, PreId.cmp_self, ih]

theorem cmpPre_self (l : List PreId) : cmpPre l l = .eq := by
  cases l <;> simp [cmpPre, cmpPreList_self]

theorem Version.cmpPrecedence_self (v : Version) : v.cmpPrecedence v = .eq := by
  simp [Version.cmpPrecedence, cmpNat_self, cmpPre_self, Ordering.then]

theorem Version.precLt_self (v : Version) : v.precLt v = false := by
  simp [Version.precLt, Version.cmpPrecedence_self]

theorem takeWhile_append_of_all {α : Type} {p : α → Bool} {l m : List α}
    (h : ∀ x ∈ l, p x = true) : (l ++ m).takeWhile p = l ++ m.takeWhile p := by
  induction l with
  | nil => simp
  | cons a t ih =>
    have ha : p a = true := h a (List.mem_cons_self a t)
    simp [List.takeWhile_cons, ha, ih fun x hx => h x (List.mem_cons_of_mem a hx)]

theorem takeWhile_append_of_stop {α : Type} {p : α → Bool} {l m : List α}
    (h : ∃ x ∈ l, p x = false) : (l ++ m).takeWhile p = l.takeWhile p := by
  induction l with
  | nil => simp at h
  | cons a t ih =>
    by_cases hp : p a
    · obtain ⟨x, hx, hpx⟩ := h
      rcases List.mem_cons.mp hx with hxa | hxt
      · rw [hxa] at hpx; rw [hpx] at hp; exact absurd hp (by simp)
      · simp [List.takeWhile_cons, hp, ih ⟨x, hxt, hpx⟩]
    · simp [List.takeWhile_cons, hp]

theorem trimEndList_append_nonws (m l : List Char) (hne : l ≠ [])
    (hws : ∀ c ∈ l, c.isWhitespace = false) : trimEndList (m ++ l) = m ++ l := by
  have hd : (l.reverse ++ m.reverse).dropWhile Char.isWhitespace
      = l.reverse ++ m.reverse := by
    cases hrev : l.reverse with
    | nil => exact absurd (List.reverse_eq_nil_iff.mp hrev) hne
    | cons c cs =>
      have hc : c ∈ l := by
        rw [← List.mem_reverse, hrev]; exact List.mem_cons_self c cs
      simp [List.dropWhile_cons, hws c hc]
  rw [trimEndList, List.reverse_append, hd, ← List.reverse_append,
    List.reverse_reverse]

theorem rsplitOnceSpace_none (l : List Char) (h : ∀ c ∈ l, c ≠ ' ') :
    rsplitOnceSpace l = none := by
  induction l with
  | nil => rfl
  | cons c t ih =>
    simp [rsplitOnceSpace, ih fun x hx => h x (List.mem_cons_of_mem c hx),
      h c (List.mem_cons_self c t)]

theorem rsplitOnceSpace_append (m v : List Char) (hv : rsplitOnceSpace v = none) :
    rsplitOnceSpace (m ++ ' ' :: v) = some (m, v) := by
  induction m with
  | nil => simp [rsplitOnceSpace, hv]
  | cons c t ih => simp [rsplitOnceSpace, ih]

theorem tokenOf_driverVOutput (v : String) (hne : v.data ≠ [])
    (hws : ∀ c ∈ v.data, c.isWhitespace = false) :
    tokenOf (driverVOutput v) = some v := by
  have hdata : (driverVOutput v).data = "dylint-driver ".data ++ v.data :=
    string_data_append "dylint-driver " v
  have htrim : trimEndList ("dylint-driver ".data ++ v.data)
      = "dylint-driver ".data ++ v.data :=
    trimEndList_append_nonws "dylint-driver ".data v.data hne hws
  have hsplitShape : "dylint-driver ".data ++ v.data
      = "dylint-driver".data ++ ' ' :: v.data := by
    have : "dylint-driver ".data = "dylint-driver".data ++ [' '] := by decide
    rw [this, List.append_assoc]; rfl
  have hvnone : rsplitOnceSpace v.data = none := by
    refine rsplitOnceSpace_none v.data fun c hc hceq => ?_
    have := hws c hc
    rw [hceq] at this
    exact absurd this (by decide)
  rw [tokenOf, hdata, htrim, hsplitShape,
    rsplitOnceSpace_append "dylint-driver".data v.data hvnone]
  rfl

theorem rsplitOnceSpace_map_snd (l : List Char) :
    (rsplitOnceSpace l).map (fun p => p.2) = afterLastSpace l := by
  induction l with
  | nil => simp [rsplitOnceSpace, afterLastSpace]
  | cons c rest ih =>
    cases h : rsplitOnceSpace rest with
    | some q =>
      obtain ⟨b, a⟩ := q
      have ihs := ih
      rw [h] at ihs
      by_cases hm : ' ' ∈ rest
      · rw [afterLastSpace, if_pos hm] at ihs
        have ha : a = (rest.reverse.takeWhile fun x => x != ' ').reverse := by
          exact (Option.some.injEq _ _).mp ihs.symm |>.symm
        have hm2 : ' ' ∈ c :: rest := List.mem_cons_of_mem c hm
        have hstop : ∃ x ∈ rest.reverse, (x != ' ') = false :=
          ⟨' ', List.mem_reverse.mpr hm, by simp⟩
        rw [rsplitOnceSpace]
        simp only [h, Option.map_some]
        rw [afterLastSpace, if_pos hm2]
        simp only [List.reverse_cons, takeWhile_append_of_stop hstop]
        rw [ha]
        rfl
      · rw [afterLastSpace, if_neg hm] at ihs
        exact absurd ihs (by simp)
    | none =>
      have ihn := ih
      rw [h] at ihn
      have hnm : ' ' ∉ rest := by
        intro hm
        rw [afterLastSpace, if_pos hm] at ihn
        exact absurd ihn (by simp)
      by_cases hc : c = ' '
      · subst hc
        have hall : ∀ x ∈ rest.reverse, (x != ' ') = true := by
          intro x hx
          have : x ∈ rest := List.mem_reverse.mp hx
          simp only [bne_iff_ne, ne_eq, decide_eq_true_eq]
          intro hxeq
          rw [hxeq] at this
          exact hnm this
        rw [rsplitOnceSpace]
        simp only [h, if_pos rfl]
        rw [afterLastSpace, if_pos (List.mem_cons_self ' ' rest)]
        simp only [List.reverse_cons, takeWhile_append_of_all hall]
        simp [List.takeWhile_cons]
      · have hcc : ' ' ∉ c :: rest := by
          intro hmem
          rcases List.mem_cons.mp hmem with he | ht
          · exact hc he.symm
          · exact hnm ht
        rw [rsplitOnceSpace]
        simp only [h]
        rw [if_neg hc, afterLastSpace, if_neg hcc]
        rfl

instance exceptDecEq {e a : Type} [DecidableEq e] [DecidableEq a] :
    DecidableEq (Except e a) := fun x y =>
  match x, y with
  | .error u, .error w =>
    decidable_of_iff (u = w) ⟨fun h => by rw [h], fun h => by injection h⟩
  | .ok u, .ok w =>
    decidable_of_iff (u = w) ⟨fun h => by rw [h], fun h => by injection h⟩
  | .error _, .ok _ => isFalse fun h => Except.noConfusion h
  | .ok _, .error _ => isFalse fun h => Except.noConfusion h

/-! ## Common concrete fixtures for witnesses and counterexamples -/

def baseEnv : Env :=
  { dylintDriverPathVar := none
    homeDir := none
    cargoPkgVersion := "0.1.0"
    quiet := false
    exeSuffix := ""
    tempDir := ⟨true, ["tmp", "pkg"]⟩
    targetDirectory := ⟨true, ["tmp", "pkg", "target"]⟩
    toolchainRoot := some ⟨true, ["toolchains", "tc"]⟩
    buildSucceeds := true }

def cacheRootPath : FsPath := ⟨true, ["home", "cache"]⟩

/-! ## Claims -/

/-- C2: for artifact and tool versions that both parse, `is_outdated`
reports stale exactly when the artifact's version is strictly less than the
running tool's version under SemVer precedence; an equal or newer artifact
version yields "not stale". -/
theorem is_outdated_stale_iff_precLt (s ourStr theirs : String) (va vo : Version)
    (ht : tokenOf s = some theirs)
    (ha : Version.parse theirs = some va)
    (ho : Version.parse ourStr = some vo) :
    (is_outdated_pure (.ok (.utf8 s)) ourStr).1 = .ok (va.precLt vo)
    ∧ (va.cmpPrecedence vo = .eq ∨ va.cmpPrecedence vo = .gt →
        (is_outdated_pure (.ok (.utf8 s)) ourStr).1 = .ok false) := by
  constructor
  · simp [is_outdated_pure, ht, ha, ho]
  · intro hcase
    simp only [is_outdated_pure, ht, ha, ho]
    rcases hcase with hq | hq <;> simp [Version.precLt, hq]

theorem is_outdated_stale_iff_precLt_witness :
    tokenOf "dylint-driver 0.1.0" = some "0.1.0"
    ∧ (is_outdated_pure (.ok (.utf8 "dylint-driver 0.1.0")) "0.2.0").1
        = .ok ((⟨0, 1, 0, [], []⟩ : Version).precLt ⟨0, 2, 0, [], []⟩) :=
  ⟨by decide,
   (is_outdated_stale_iff_precLt "dylint-driver 0.1.0" "0.2.0" "0.1.0"
     ⟨0, 1, 0, [], []⟩ ⟨0, 2, 0, [], []⟩ (by decide) (by decide) (by decide)).1⟩

/-- C3: a failure to parse the artifact's version token is non-fatal — the
check warns and returns stale (`true`) — while a failure to parse the
running tool's own version is a fatal error. -/
theorem is_outdated_artifact_parse_nonfatal_self_fatal (s theirs ourStr : String)
    (ht : tokenOf s = some theirs) :
    (Version.parse theirs = none →
      is_outdated_pure (.ok (.utf8 s)) ourStr = (.ok true, [warnCouldNotParse theirs]))
    ∧ (∀ va, Version.parse theirs = some va → Version.parse ourStr = none →
      is_outdated_pure (.ok (.utf8 s)) ourStr = (.error .selfVersionUnparseable, [])) := by
  constructor
  · intro hnone
    simp [is_outdated_pure, ht, hnone]
  · intro va hsome hself
    simp [is_outdated_pure, ht, hsome, hself]

theorem is_outdated_artifact_parse_nonfatal_self_fatal_witness :
    is_outdated_pure (.ok (.utf8 "dylint-driver bogus")) "0.1.0"
      = (.ok true, [warnCouldNotParse "bogus"]) :=
  (is_outdated_artifact_parse_nonfatal_self_fatal "dylint-driver bogus" "bogus" "0.1.0"
    (by decide)).1 (by decide)

/-- C5 counterexample: the descriptor generation step performs three file
writes (manifest, toolchain pin, entry-point source) and one directory
creation — not four file writes. -/
theorem initPackage_writes_three_not_four :
    (initPackageOps "stable" "0.1.0" ⟨true, ["tmp", "pkg"]⟩).countP FsOp.isWrite = 3
    ∧ ¬ ((initPackageOps "stable" "0.1.0" ⟨true, ["tmp", "pkg"]⟩).countP FsOp.isWrite
          = 4) := by
  decide

/-- C5 (amended): for every toolchain id and workspace, a successful run of
the build-descriptor generation step writes exactly three files and creates
exactly one directory, and `initPackage` applies exactly those operations. -/
theorem initPackage_three_writes_one_dir (toolchain v : String) (package : FsPath) :
    (initPackageOps toolchain v package).countP FsOp.isWrite = 3
    ∧ (initPackageOps toolchain v package).countP FsOp.isMakeDir = 1
    ∧ ∀ (env : Env) (st : St), env.cargoPkgVersion = v →
        initPackage env toolchain package st
          = (.ok (), { st with fs := (initPackageOps toolchain v package).foldl applyOp st.fs }) := by
  refine ⟨rfl, rfl, ?_⟩
  intro env st hv
  simp [initPackage, hv]

theorem initPackage_three_writes_one_dir_witness :
    (initPackageOps "stable" "0.1.0" ⟨true, ["tmp", "pkg"]⟩).countP FsOp.isWrite = 3
    ∧ initPackage baseEnv "stable" ⟨true, ["tmp", "pkg"]⟩ ⟨[], [], []⟩
        = (.ok (),
           { (⟨[], [], []⟩ : St) with
               fs := (initPackageOps "stable" "0.1.0"
                        ⟨true, ["tmp", "pkg"]⟩).foldl applyOp
                       (⟨[], [], []⟩ : St).fs }) :=
  ⟨(initPackage_three_writes_one_dir "stable" "0.1.0" ⟨true, ["tmp", "pkg"]⟩).1,
   (initPackage_three_writes_one_dir "stable" "0.1.0"
      ⟨true, ["tmp", "pkg"]⟩).2.2 baseEnv ⟨[], [], []⟩ rfl⟩

/-- C6 counterexample: on the multi-line output `"a b\nc"` the token the
check parses is `"b\nc"` — the text after the last space of the whole
trimmed output, spanning the newline — whereas the text after the last
space on the trimmed last line does not exist (the last line `"c"` has no
space). -/
theorem tokenOf_not_last_line_token :
    tokenOf "a b\nc" = some "b\nc"
    ∧ lastLineTokenSpec "a b\nc" = none
    ∧ tokenOf "a b\nc" ≠ lastLineTokenSpec "a b\nc" := by
  decide

/-- C6 (amended): the candidate version token is the text after the last
space of the entire trimmed output (which coincides with the last-line rule
only when the final line itself contains a space). -/
theorem tokenOf_eq_afterLastSpace_of_trimmed (s : String) :
    tokenOf s = (afterLastSpace (trimEndList s.data)).map fun l => String.mk l := by
  simp only [tokenOf, ← rsplitOnceSpace_map_snd, Option.map_map]
  rfl

/-- C9: with the cache-root override environment variable naming a path that
is not an existing directory, cache-root resolution fails with the
configuration error and returns the state unchanged — no directory is
created and the filesystem is untouched. -/
theorem dylint_drivers_override_not_dir (env : Env) (st : St) (p : FsPath)
    (hvar : env.dylintDriverPathVar = some p)
    (hdir : isDirFS st.fs p = false) :
    dylint_drivers env st = (.error .configuration, st) := by
  simp [dylint_drivers, hvar, hdir]

theorem dylint_drivers_override_not_dir_witness :
    dylint_drivers { baseEnv with dylintDriverPathVar := some cacheRootPath }
      ⟨[], [], []⟩ = (.error .configuration, ⟨[], [], []⟩) :=
  dylint_drivers_override_not_dir _ _ cacheRootPath rfl (by decide)

/-- C10: with the cache-root override set to an existing directory,
cache-root resolution returns exactly that path and performs no filesystem
modification at all — in particular no README marker file is written. -/
theorem dylint_drivers_override_dir_no_effects (env : Env) (st : St) (p : FsPath)
    (hvar : env.dylintDriverPathVar = some p)
    (hdir : isDirFS st.fs p = true) :
    dylint_drivers env st = (.ok p, st) := by
  simp [dylint_drivers, hvar, hdir]

theorem dylint_drivers_override_dir_no_effects_witness :
    dylint_drivers { baseEnv with dylintDriverPathVar := some cacheRootPath }
      ⟨[(cacheRootPath, .dir)], [], []⟩
      = (.ok cacheRootPath, ⟨[(cacheRootPath, .dir)], [], []⟩) :=
  dylint_drivers_override_dir_no_effects _ _ cacheRootPath rfl (by decide)

/-- Any successful `get` returns the slot `<cache root>/<toolchain>/dylint-driver`. -/
theorem get_ok_path (env : Env) (toolchain : String) (st2 : St) (p : FsPath) :
    (get env toolchain st2).1 = .ok p →
    ∃ root, (dylint_drivers env st2).1 = .ok root
      ∧ p = (root.join toolchain).join "dylint-driver" := by
  unfold get
  split
  · intro h
    exact Except.noConfusion h
  next dylintDrivers st1 heq =>
    intro h
    refine ⟨dylintDrivers, by rw [heq], ?_⟩
    split at h
    all_goals try split at h
    all_goals try split at h
    all_goals
      first
        | exact Except.noConfusion h
        | exact (Except.ok.inj h).symm

/-- C8: the build-tool subprocess runs in the sanitized environment with
exactly one extra variable, `RUSTFLAGS`, whose value embeds the absolute
runtime-library search path `<toolchain root>/lib` (absolute because the
resolved toolchain root is). -/
theorem build_sanitized_single_extra_env (env : Env) (toolchain : String)
    (driver : FsPath) (st : St) (r : FsPath)
    (hr : env.toolchainRoot = some r) (habs : r.abs = true) :
    (build env toolchain driver st).2.events
      = st.events ++ [.cargoMetadata env.tempDir,
          .cargoBuild env.tempDir [(RUSTFLAGS, rustflagsOf r)] env.quiet]
    ∧ rustflagsOf r = "-C link-args=-Wl,-rpath," ++ (FsPath.render r ++ "/lib")
    ∧ ∃ rest, (FsPath.render r ++ "/lib").data = '/' :: rest := by
  refine ⟨?_, rfl, ?_⟩
  · by_cases hb : env.buildSucceeds
    · simp [build, initPackage, hr, hb, pushEvent, lookupFS]
    · simp [build, initPackage, hr, hb, pushEvent]
  · have hren : FsPath.render r = "/" ++ String.intercalate "/" r.comps := by
      simp [FsPath.render, habs]
    refine ⟨(String.intercalate "/" r.comps).data ++ "/lib".data, ?_⟩
    rw [hren, string_data_append, string_data_append]
    rfl

theorem build_sanitized_single_extra_env_witness :
    (build baseEnv "tc" ((cacheRootPath.join "tc").join "dylint-driver")
        ⟨[], [], []⟩).2.events
      = [.cargoMetadata ⟨true, ["tmp", "pkg"]⟩,
         .cargoBuild ⟨true, ["tmp", "pkg"]⟩
           [(RUSTFLAGS, rustflagsOf ⟨true, ["toolchains", "tc"]⟩)] false] ∧
    rustflagsOf ⟨true, ["toolchains", "tc"]⟩
      = "-C link-args=-Wl,-rpath,"
        ++ (FsPath.render ⟨true, ["toolchains", "tc"]⟩ ++ "/lib") ∧
    ∃ rest, (FsPath.render ⟨true, ["toolchains", "tc"]⟩ ++ "/lib").data = '/' :: rest :=
  build_sanitized_single_extra_env baseEnv "tc"
    ((cacheRootPath.join "tc").join "dylint-driver") ⟨[], [], []⟩
    ⟨true, ["toolchains", "tc"]⟩ rfl rfl

/-- C7 (amended): the build step looks for the compiled binary named
`dylint_driver-<toolchain><EXE_SUFFIX>` under the build tool's debug output
directory and copies it to the caller-provided cache slot, while `get`'s
cache slot is `<cache root>/<toolchain>/dylint-driver` — with no executable
suffix appended on any platform. -/
theorem build_binary_name_and_cache_slot (env : Env) (toolchain : String)
    (driver : FsPath) (st : St) (r : FsPath)
    (hr : env.toolchainRoot = some r) (hb : env.buildSucceeds = true) :
    ((build env toolchain driver st).1 = .ok ()
      ∧ lookupFS (build env toolchain driver st).2.fs driver
          = lookupFS (build env toolchain driver st).2.fs
              ((env.targetDirectory.join "debug").join
                (builtBinaryName toolchain env.exeSuffix)))
    ∧ ∀ (st2 : St) (p : FsPath), (get env toolchain st2).1 = .ok p →
        ∃ root, (dylint_drivers env st2).1 = .ok root
          ∧ p = (root.join toolchain).join "dylint-driver" := by
  refine ⟨⟨?_, ?_⟩, fun st2 p h => get_ok_path env toolchain st2 p h⟩
  · simp [build, initPackage, hr, hb, pushEvent, lookupFS]
  · simp only [build, initPackage, hr, hb, pushEvent, if_true]
    simp [lookupFS]

/-- C7 counterexample: on a platform whose executable suffix is `.exe`, the
cache slot `get` returns still ends in the bare name `dylint-driver`; the
slot file name does not carry the suffix. -/
theorem cache_slot_has_no_exe_suffix :
    (get { baseEnv with
            dylintDriverPathVar := some cacheRootPath
            exeSuffix := ".exe" } "tc"
        ⟨[(cacheRootPath, .dir)], [], []⟩).1
      = .ok ⟨true, ["home", "cache", "tc", "dylint-driver"]⟩
    ∧ ("dylint-driver"
        ≠ "dylint-driver"
          ++ ({ baseEnv with
                dylintDriverPathVar := some cacheRootPath
                exeSuffix := ".exe" } : Env).exeSuffix) := by
  constructor
  · decide
  · decide

theorem build_binary_name_and_cache_slot_witness :
    (build baseEnv "tc" ((cacheRootPath.join "tc").join "dylint-driver")
        ⟨[], [], []⟩).1 = .ok () ∧
    lookupFS (build baseEnv "tc" ((cacheRootPath.join "tc").join "dylint-driver")
        ⟨[], [], []⟩).2.fs ((cacheRootPath.join "tc").join "dylint-driver")
      = lookupFS (build baseEnv "tc" ((cacheRootPath.join "tc").join "dylint-driver")
          ⟨[], [], []⟩).2.fs
          ((baseEnv.targetDirectory.join "debug").join
            (builtBinaryName "tc" baseEnv.exeSuffix)) :=
  (build_binary_name_and_cache_slot baseEnv "tc"
    ((cacheRootPath.join "tc").join "dylint-driver") ⟨[], [], []⟩
    ⟨true, ["toolchains", "tc"]⟩ rfl rfl).1

def c1Env : Env := { baseEnv with dylintDriverPathVar := some cacheRootPath }

def c1St : St :=
  ⟨[(cacheRootPath, .dir), (cacheRootPath.join "tc", .dir),
    ((cacheRootPath.join "tc").join "dylint-driver", .file "garbage")], [], []⟩

/-- C1 counterexample: with the cached artifact replaced by a plain file
that is not a valid executable, `get` returns the spawn error from the
staleness check instead of rebuilding — no build is performed. -/
theorem get_fails_on_nonexecutable_artifact :
    (get c1Env "tc" c1St).1
      = .error (.spawnFailed ((cacheRootPath.join "tc").join "dylint-driver"))
    ∧ buildCount (get c1Env "tc" c1St).2.events = 0 := by
  decide

/-- C1 (amended): only a version token that fails semantic-version parsing
makes `get` treat an existing artifact as stale and rebuild; an artifact
that cannot be executed, or whose output is not UTF-8, or whose trimmed
output contains no space-delimited token, makes `get` fail with an error
and perform no build. -/
theorem get_rebuild_only_on_unparseable_version (env : Env) (toolchain : String)
    (st : St) (root : FsPath)
    (hvar : env.dylintDriverPathVar = some root)
    (hroot : isDirFS st.fs root = true)
    (hsub : isDirFS st.fs (root.join toolchain) = true) :
    (∀ c, lookupFS st.fs ((root.join toolchain).join "dylint-driver")
          = some (.file c) →
        (get env toolchain st).1
          = .error (.spawnFailed ((root.join toolchain).join "dylint-driver"))
        ∧ buildCount (get env toolchain st).2.events = buildCount st.events)
    ∧ (lookupFS st.fs ((root.join toolchain).join "dylint-driver")
          = some (.execFile .nonUtf8) →
        (get env toolchain st).1 = .error .invalidUtf8
        ∧ buildCount (get env toolchain st).2.events = buildCount st.events)
    ∧ (∀ s, lookupFS st.fs ((root.join toolchain).join "dylint-driver")
          = some (.execFile (.utf8 s)) → tokenOf s = none →
        (get env toolchain st).1 = .error .noVersionToken
        ∧ buildCount (get env toolchain st).2.events = buildCount st.events)
    ∧ (∀ s t r, lookupFS st.fs ((root.join toolchain).join "dylint-driver")
          = some (.execFile (.utf8 s)) → tokenOf s = some t →
        Version.parse t = none →
        env.toolchainRoot = some r → env.buildSucceeds = true →
        (get env toolchain st).1
          = .ok ((root.join toolchain).join "dylint-driver")
        ∧ buildCount (get env toolchain st).2.events = buildCount st.events + 1) := by
  refine ⟨?_, ?_, ?_, ?_⟩
  · intro c hc
    constructor <;>
      simp [get, dylint_drivers, hvar, hroot, ensureDriverDir, hsub, existsFS, hc,
        is_outdated, is_outdated_pure, runDriverV, pushEvent, buildCount,
        List.countP_append, List.countP_cons, Event.isCargoBuild]
  · intro hc
    constructor <;>
      simp [get, dylint_drivers, hvar, hroot, ensureDriverDir, hsub, existsFS, hc,
        is_outdated, is_outdated_pure, runDriverV, pushEvent, buildCount,
        List.countP_append, List.countP_cons, Event.isCargoBuild]
  · intro s hc htok
    constructor <;>
      simp [get, dylint_drivers, hvar, hroot, ensureDriverDir, hsub, existsFS, hc,
        is_outdated, is_outdated_pure, runDriverV, pushEvent, htok, buildCount,
        List.countP_append, List.countP_cons, Event.isCargoBuild]
  · intro s t r hc htok hparse hr hb
    constructor <;>
      simp [get, dylint_drivers, hvar, hroot, ensureDriverDir, hsub, existsFS, hc,
        is_outdated, is_outdated_pure, runDriverV, pushEvent, htok, hparse, hr, hb,
        build, initPackage, initPackageOps, applyOp, lookupFS, buildCount,
        List.countP_append, List.countP_cons, Event.isCargoBuild]

def c1bSt : St :=
  ⟨[(cacheRootPath, .dir), (cacheRootPath.join "tc", .dir),
    ((cacheRootPath.join "tc").join "dylint-driver",
      .execFile (.utf8 "dylint-driver bogus"))], [], []⟩

theorem get_rebuild_only_on_unparseable_version_witness :
    (get c1Env "tc" c1bSt).1
      = .ok ((cacheRootPath.join "tc").join "dylint-driver")
    ∧ buildCount (get c1Env "tc" c1bSt).2.events = buildCount c1bSt.events + 1 :=
  (get_rebuild_only_on_unparseable_version c1Env "tc" c1bSt cacheRootPath rfl
      (by decide) (by decide)).2.2.2 "dylint-driver bogus" "bogus"
      ⟨true, ["toolchains", "tc"]⟩ (by decide) (by decide) (by decide) rfl rfl

def c4EnvOf (v : String) (r : FsPath) : Env :=
  { baseEnv with
      dylintDriverPathVar := some cacheRootPath
      cargoPkgVersion := v
      toolchainRoot := some r }

def c4St0 : St := ⟨[(cacheRootPath, .dir)], [], []⟩

/-- C4 counterexample: starting from an empty cache, the second of two
successive `get` calls spawns a subprocess — the version-query invocation
of the cached binary — contradicting the claim that the second call spawns
no subprocess of any kind. -/
theorem get_second_call_spawns_version_query :
    ((get (c4EnvOf "0.1.0" ⟨true, ["toolchains", "tc"]⟩) "tc"
        (get (c4EnvOf "0.1.0" ⟨true, ["toolchains", "tc"]⟩) "tc" c4St0).2).2.events.drop
      (get (c4EnvOf "0.1.0" ⟨true, ["toolchains", "tc"]⟩) "tc" c4St0).2.events.length)
      = [.versionQuery ((cacheRootPath.join "tc").join "dylint-driver")] := by
  decide

set_option maxHeartbeats 1000000 in
/-- C4 (amended): for every toolchain id (given a well-formed tool version),
calling `get` twice in succession with no external modification performs
exactly one build; the second call spawns no build-tool process, but it
does invoke the cached binary exactly once with the version-query flag. -/
theorem get_twice_single_build (toolchain v : String) (r : FsPath) (vo : Version)
    (hv : Version.parse v = some vo)
    (hne : v.data ≠ [])
    (hws : ∀ c ∈ v.data, c.isWhitespace = false) :
    buildCount (get (c4EnvOf v r) toolchain
        ((get (c4EnvOf v r) toolchain c4St0).2)).2.events = 1
    ∧ (get (c4EnvOf v r) toolchain
        ((get (c4EnvOf v r) toolchain c4St0).2)).2.events.drop
        ((get (c4EnvOf v r) toolchain c4St0).2.events.length)
        = [.versionQuery ((cacheRootPath.join toolchain).join "dylint-driver")]
    ∧ (get (c4EnvOf v r) toolchain ((get (c4EnvOf v r) toolchain c4St0).2)).1
        = .ok ((cacheRootPath.join toolchain).join "dylint-driver") := by
  have htok := tokenOf_driverVOutput v hne hws
  have hlt := Version.precLt_self vo
  refine ⟨?_, ?_, ?_⟩ <;>
    simp [get, dylint_drivers, ensureDriverDir, build, initPackage, initPackageOps,
      applyOp, is_outdated, is_outdated_pure, runDriverV, pushEvent, existsFS,
      isDirFS, lookupFS, FsPath.join, c4EnvOf, c4St0, baseEnv, cacheRootPath,
      builtBinaryName, htok, hv, hlt, buildCount, Event.isCargoBuild,
      List.countP_cons, List.countP_append]

theorem get_twice_single_build_witness :
    buildCount (get (c4EnvOf "0.1.0" ⟨true, ["toolchains", "tc"]⟩) "tc"
        ((get (c4EnvOf "0.1.0" ⟨true, ["toolchains", "tc"]⟩) "tc" c4St0).2)).2.events = 1
    ∧ (get (c4EnvOf "0.1.0" ⟨true, ["toolchains", "tc"]⟩) "tc"
        ((get (c4EnvOf "0.1.0" ⟨true, ["toolchains", "tc"]⟩) "tc" c4St0).2)).2.events.drop
        ((get (c4EnvOf "0.1.0" ⟨true, ["toolchains", "tc"]⟩) "tc" c4St0).2.events.length)
        = [.versionQuery ((cacheRootPath.join "tc").join "dylint-driver")]
    ∧ (get (c4EnvOf "0.1.0" ⟨true, ["toolchains", "tc"]⟩) "tc"
        ((get (c4EnvOf "0.1.0" ⟨true, ["toolchains", "tc"]⟩) "tc" c4St0).2)).1
        = .ok ((cacheRootPath.join "tc").join "dylint-driver") :=
  get_twice_single_build "tc" "0.1.0" ⟨true, ["toolchains", "tc"]⟩
    ⟨0, 1, 0, [], []⟩ (by decide) (by decide) (by decide)

end DriverBuilder
